import Mathlib

/-!
# Verification of the formation-mcp Remote API Client and Launch-and-Wait Workflow

Shallow embedding of the Go sources `internal/client/client.go`,
`internal/client/types.go` and `internal/workflows/workflows.go` of the
cyverse-de/formation-mcp repository, together with theorems settling the
behavioural claims about them.

Modelling conventions:
* Go strings are modelled as Lean `String`, except in the path-normalization
  helper `buildDataPath`, where the character-level manipulation of
  `strings.TrimPrefix` is modelled over `List Char` (the character sequence
  of the Go string).
* Wall-clock instants are modelled as integers (seconds); `time.Duration`
  values as natural numbers of seconds.
* HTTP requests are modelled by their observable shape (method, path, query
  parameters); query parameters as an association list.
* Fallible remote calls are modelled by `Except String` / `Option` values
  supplied by the environment (a script of responses).
-/

set_option linter.unusedVariables false

/-! ## Client data model (`internal/client/types.go`) -/

/-- One app parameter (`client.Parameter`): identifier, display name, label,
description, required flag and type tag. The JSON default value is carried
opaquely and is irrelevant to the claims, so it is omitted here. -/
structure Parameter where
  id : String
  name : String
  label : String
  description : String
  required : Bool
  type : String
deriving Repr, DecidableEq

/-- A named group of parameters (`client.ParameterGroup`). -/
structure ParameterGroup where
  id : String
  name : String
  label : String
  parameters : List Parameter
deriving Repr, DecidableEq

/-- The full parameter structure for an app (`client.AppParameters`). -/
structure AppParameters where
  overallJobType : String
  groups : List ParameterGroup
deriving Repr, DecidableEq

/-- The caller-supplied configuration mapping (`client.LaunchConfig`,
a `map[string]interface{}` in Go). Only key membership is ever consulted
(`_, ok := config[param.ID]`), so the model carries the set of keys as a
list of strings. -/
abbrev LaunchConfig := List String

/-- Key-membership test on a `LaunchConfig`, modelling `_, ok := config[k]`. -/
def LaunchConfig.hasKey (config : LaunchConfig) (k : String) : Bool :=
  List.contains config k

/-- Response from launching an app (`client.LaunchResponse`). -/
structure LaunchResponse where
  analysisID : String
  name : String
  status : String
  url : String
deriving Repr, DecidableEq

/-- A status snapshot of an analysis (`client.AnalysisStatus`); the opaque
`url_check_details` JSON field is never read by the workflow and is omitted. -/
structure AnalysisStatus where
  analysisID : String
  status : String
  urlReady : Bool
  url : String
deriving Repr, DecidableEq

/-- Decoded body of a successful `/login` response (`client.LoginResponse`),
restricted to the fields the client reads. `expiresIn` is in seconds. -/
structure LoginResponse where
  accessToken : String
  expiresIn : Int
deriving Repr, DecidableEq

/-! ## Client state and token lifecycle (`internal/client/client.go`) -/

/-- `tokenExpiryMargin`: safety margin (in seconds) subtracted from the token
expiry instant, fixed at 60 seconds in `client.go`. -/
def tokenExpiryMargin : Int := 60

/-- The mutable fields of `client.FormationClient` relevant to the token
lifecycle. The Go struct holds `token`, `tokenExpiry`, `username`,
`password` as plain fields with no mutex. -/
structure FormationClient where
  token : String
  tokenExpiry : Int
  username : String
  password : String
deriving Repr, DecidableEq

/-- Effect of a successful `Login` on the client state at instant `now`
(`client.go` lines 146-149): the token is replaced and the stored expiry
becomes `now + expiresIn - tokenExpiryMargin`. -/
def loginApply (c : FormationClient) (now : Int) (resp : LoginResponse) : FormationClient :=
  { c with
    token := resp.accessToken
    tokenExpiry := now + resp.expiresIn - tokenExpiryMargin }

/-- The action `ensureToken` decides to take, before any HTTP request. -/
inductive EnsureAction where
  /-- Valid token held: no re-authentication (`return nil` at line 99). -/
  | noop
  /-- Stale/absent credentials but a token string exists: proceed with the
  possibly-expired token (`return nil` at line 108). -/
  | optimistic
  /-- Credentials available and token stale or absent: call `Login`. -/
  | login
  /-- Neither token nor credentials: fail. -/
  | err (msg : String)
deriving Repr, DecidableEq

/-- `FormationClient.ensureToken` (`client.go` lines 96-114) as a pure
decision function of the client state and the current instant. -/
def ensureToken (c : FormationClient) (now : Int) : EnsureAction :=
  if c.token ≠ "" ∧ now < c.tokenExpiry then
    .noop
  else if c.username = "" ∨ c.password = "" then
    if c.token = "" then .err "no token or credentials available"
    else .optimistic
  else
    .login

/-! ## HTTP request shapes -/

/-- Observable shape of an outbound HTTP request: method, request path and
query parameters (modelled as an association list, as produced by
`url.Values`). -/
structure Request where
  method : String
  path : String
  query : List (String × String)
deriving Repr, DecidableEq

/-- `FormationClient.ControlAnalysis` (`client.go` lines 318-331): the request
it issues. The Go code builds `url.Values` containing only the single key
`operation`; the `saveOutputs` argument is accepted but never written into
the query (or anywhere else), and no response body is decoded. -/
def controlAnalysisRequest (analysisID operation : String) (saveOutputs : Bool) : Request :=
  { method := "POST"
    path := "/apps/analyses/" ++ analysisID ++ "/control"
    query := [("operation", operation)] }

/-! ## Data-store path construction -/

/-- Go `strings.TrimPrefix s pre`: returns `s` without the provided leading
`pre`; if `s` does not start with `pre`, `s` is returned unchanged. The
removal happens (at most) once. Strings are modelled as character lists. -/
def trimPrefixGo (s pre : List Char) : List Char :=
  if pre.isPrefixOf s then s.drop pre.length else s

/-- `FormationClient.buildDataPath` (`client.go` lines 198-200):
`"/data/" + strings.TrimPrefix(path, "/")`. -/
def buildDataPath (path : List Char) : List Char :=
  "/data/".data ++ trimPrefixGo path "/".data

/-! ## Concurrency model for the token check-and-refresh sequence

`FormationClient` has no mutex (no `sync` import in `client.go`): the
staleness check in `ensureToken` (read of `c.token`/`c.tokenExpiry`) and the
token store in `Login` (write of `c.token`/`c.tokenExpiry`) are separate,
unsynchronized operations on shared fields. We model two concurrent callers
each executing the check-and-refresh sequence as two atomic steps (the check,
then — if the token was observed stale/absent — the login write), under an
arbitrary interleaving. A stale/absent token is represented by `token = ""`,
and credentials are assumed present (the refreshing configuration). -/

/-- Shared token state observed by concurrent callers, instrumented with the
number of `Login` (authentication) calls performed. -/
structure SharedToken where
  token : String
  loginCount : Nat
deriving Repr, DecidableEq

/-- Program counter of one caller running the unlocked check-and-refresh
sequence of `ensureToken`. -/
inductive CallerPC where
  /-- About to execute the staleness check (`client.go` line 98). -/
  | check
  /-- Observed a stale/absent token; about to execute `Login`'s token store
  (`client.go` lines 146-149). -/
  | login
  /-- Finished `ensureToken`. -/
  | done
deriving Repr, DecidableEq

/-- One atomic step of a caller: the check reads the shared token; the login
writes a fresh token and counts one authentication. -/
def callerStep (pc : CallerPC) (s : SharedToken) : CallerPC × SharedToken :=
  match pc with
  | .check => if s.token ≠ "" then (.done, s) else (.login, s)
  | .login => (.done, { token := "fresh-token", loginCount := s.loginCount + 1 })
  | .done => (.done, s)

/-- Run a schedule over two callers A and B sharing the token state:
`false` lets caller A take its next atomic step, `true` caller B. -/
def runSchedule : List Bool → CallerPC × CallerPC × SharedToken → CallerPC × CallerPC × SharedToken
  | [], st => st
  | b :: rest, (pa, pb, s) =>
    if b then
      let (pb', s') := callerStep pb s
      runSchedule rest (pa, pb', s')
    else
      let (pa', s') := callerStep pa s
      runSchedule rest (pa', pb, s')

/-! ## Launch-and-Wait workflow (`internal/workflows/workflows.go`) -/

/-- The result record built by `LaunchAndWait` (`workflows.LaunchResult`). -/
structure LaunchResult where
  analysisID : String
  name : String
  status : String
  url : String
  missingParams : List String
  isInteractive : Bool
deriving Repr, DecidableEq

/-- The zero value of `workflows.LaunchResult`. -/
def LaunchResult.empty : LaunchResult :=
  { analysisID := "", name := "", status := "", url := ""
    missingParams := [], isInteractive := false }

/-- `FormationWorkflows.isInteractiveJobType` (`workflows.go` lines 183-187):
exact comparison against the four strings `"Interactive"`, `"interactive"`,
`"VICE"`, `"vice"`. -/
def isInteractiveJobType (jobType : String) : Bool :=
  jobType == "Interactive" || jobType == "interactive" ||
  jobType == "VICE" || jobType == "vice"

/-- `FormationWorkflows.checkMissingParams` (`workflows.go` lines 165-180):
nested loops over groups and parameters, appending the *name* of every
required parameter whose *identifier* is absent from the config. -/
def checkMissingParams (params : AppParameters) (config : LaunchConfig) : List String :=
  params.groups.foldl
    (fun missing group =>
      group.parameters.foldl
        (fun missing param =>
          if param.required && !(config.hasKey param.id) then
            missing ++ [param.name]
          else
            missing)
        missing)
    []

/-- The flattened parameter list of a descriptor tree (all groups in order). -/
def allParameters (params : AppParameters) : List Parameter :=
  (params.groups.map ParameterGroup.parameters).flatten

/-- How one iteration of the polling loop ends, when it ends the loop. -/
inductive LoopExit where
  /-- `URLReady && URL != ""`: success with the held result. -/
  | ready (r : LaunchResult)
  /-- Terminal failure status: error message naming the status. -/
  | failed (r : LaunchResult) (msg : String)
  /-- Deadline passed: timeout error naming the configured maximum wait. -/
  | timedOut (r : LaunchResult) (msg : String)
deriving Repr, DecidableEq

/-- The polling loop of `LaunchAndWait` (`workflows.go` lines 97-127).

Time model: the launch happens at instant `0`, so the deadline is the
`maxWait` duration itself and the `i`-th ticker tick (counting from `i = 0`)
fires at instant `(i+1) * interval`. Each `script` entry is the outcome of
one `GetAnalysisStatus` call: `none` models a failed fetch (logged and
skipped by the Go code), `some snap` a decoded snapshot.

Mirrors the Go loop body in order: the deadline test (`time.Now().After`,
i.e. strictly after) precedes the fetch; a fetch error `continue`s with the
held result unchanged; otherwise the held status/URL are replaced by the
snapshot, the URL-readiness test runs first and the terminal-status test
second. The returned `Nat` counts the status fetches issued. `none` is
returned only if the script is exhausted while the loop would still be
polling (a model artifact: the Go loop would keep polling). -/
def pollLoop (deadline interval : Nat) :
    Nat → LaunchResult → List (Option AnalysisStatus) → Option (LoopExit × Nat)
  | i, r, script =>
    if deadline < (i + 1) * interval then
      some (.timedOut r ("timeout waiting for app to be ready after " ++ toString deadline), i)
    else
      match script with
      | [] => none
      | fetch :: rest =>
        match fetch with
        | none => pollLoop deadline interval (i + 1) r rest
        | some snap =>
          let r' := { r with status := snap.status, url := snap.url }
          if snap.urlReady && snap.url != "" then
            some (.ready r', i + 1)
          else if snap.status == "Failed" || snap.status == "Canceled" then
            some (.failed r' ("analysis failed with status: " ++ snap.status), i + 1)
          else
            pollLoop deadline interval (i + 1) r' rest

/-- The held result after processing a script segment without exiting:
each successful fetch replaces the held status/URL (`workflows.go`
lines 112-113), a failed fetch leaves them unchanged. -/
def pollFold (r : LaunchResult) (script : List (Option AnalysisStatus)) : LaunchResult :=
  script.foldl
    (fun acc fetch =>
      match fetch with
      | none => acc
      | some snap => { acc with status := snap.status, url := snap.url })
    r

/-- Overall outcome of `LaunchAndWait`. -/
inductive LaunchOutcome where
  /-- An error from `GetAppParameters` or `LaunchApp`, propagated wrapped. -/
  | err (msg : String)
  /-- Early return with the list of missing required parameters. -/
  | missingParams (names : List String)
  /-- Batch job: immediate return after the launch, no polling. -/
  | launched (r : LaunchResult)
  /-- Interactive job became ready: success with URL. -/
  | ready (r : LaunchResult)
  /-- Interactive job reached a terminal failure status. -/
  | failedStatus (r : LaunchResult) (msg : String)
  /-- Poll deadline exceeded. -/
  | timedOut (r : LaunchResult) (msg : String)
  /-- Model artifact: the response script ran out while still polling. -/
  | stillPolling
deriving Repr, DecidableEq

/-- Result of one `LaunchAndWait` invocation, instrumented with the
observable remote interactions: whether the launch POST was attempted,
whether the polling phase was entered, and how many status fetches ran. -/
structure LaunchRun where
  outcome : LaunchOutcome
  launchAttempted : Bool
  polled : Bool
  pollsIssued : Nat
deriving Repr, DecidableEq

/-- `FormationWorkflows.LaunchAndWait` (`workflows.go` lines 41-128), with
the remote environment supplied explicitly: `paramsResult` is the outcome of
`GetAppParameters`, `launchResult` the outcome of `LaunchApp`, and `script`
the sequence of `GetAnalysisStatus` outcomes consumed by the polling loop.
`maxWait` and `interval` are in seconds; the launch instant is `0`.

Mirrors the Go control flow: a parameter-fetch error returns wrapped; a
non-empty missing-parameter list returns immediately (no launch call); a
launch error returns wrapped; the result record takes `AnalysisID`, `Name`
and `Status` from the launch response (its URL field is not copied); batch
jobs return immediately; interactive jobs enter the polling loop. -/
def launchAndWait (paramsResult : Except String AppParameters)
    (launchResult : Except String LaunchResponse)
    (script : List (Option AnalysisStatus))
    (config : LaunchConfig) (name : String) (maxWait interval : Nat) : LaunchRun :=
  match paramsResult with
  | .error e =>
    { outcome := .err ("failed to get app parameters: " ++ e)
      launchAttempted := false, polled := false, pollsIssued := 0 }
  | .ok params =>
    let missing := checkMissingParams params config
    if missing ≠ [] then
      { outcome := .missingParams missing
        launchAttempted := false, polled := false, pollsIssued := 0 }
    else
      let interactive := isInteractiveJobType params.overallJobType
      match launchResult with
      | .error e =>
        { outcome := .err ("failed to launch app: " ++ e)
          launchAttempted := true, polled := false, pollsIssued := 0 }
      | .ok resp =>
        let result : LaunchResult :=
          { analysisID := resp.analysisID, name := resp.name, status := resp.status
            url := "", missingParams := [], isInteractive := interactive }
        if !interactive then
          { outcome := .launched result
            launchAttempted := true, polled := false, pollsIssued := 0 }
        else
          match pollLoop maxWait interval 0 result script with
          | none =>
            { outcome := .stillPolling
              launchAttempted := true, polled := true, pollsIssued := script.length }
          | some (.ready r, n) =>
            { outcome := .ready r, launchAttempted := true, polled := true, pollsIssued := n }
          | some (.failed r msg, n) =>
            { outcome := .failedStatus r msg
              launchAttempted := true, polled := true, pollsIssued := n }
          | some (.timedOut r msg, n) =>
            { outcome := .timedOut r msg
              launchAttempted := true, polled := true, pollsIssued := n }

/-- `FormationWorkflows.StopAnalysis` (`workflows.go` lines 136-143): derives
the control operation from `saveOutputs` and delegates to `ControlAnalysis`;
the issued request is the one `controlAnalysisRequest` describes. -/
def stopAnalysisRequest (analysisID : String) (saveOutputs : Bool) : Request :=
  controlAnalysisRequest analysisID (if saveOutputs then "save_and_exit" else "exit") saveOutputs

/-! ## Theorems -/

/-- C1: the claim says `controlAnalysis` sends `operation` as a query
parameter *and* sends `saveOutputs` as a second query parameter
(`save_outputs`) on the POST to the control endpoint. The code only sends
`operation`: evaluating the built request at the failing input
`ControlAnalysis("analysis-123", "exit", true)` shows the query holds the
single pair `("operation", "exit")` and no `save_outputs` key, although the
repository's own API coverage document asserts `save_outputs` is sent via
query parameter. -/
theorem controlAnalysis_omits_save_outputs :
    controlAnalysisRequest "analysis-123" "exit" true
      = { method := "POST"
          path := "/apps/analyses/analysis-123/control"
          query := [("operation", "exit")] }
    ∧ (controlAnalysisRequest "analysis-123" "exit" true).query.lookup "save_outputs" = none := by
  constructor
  · rfl
  · rfl

/-- C2 counterexample: the claim says the job-type tag is matched
case-insensitively, so "INTERACTIVE", "Vice" and "ViCe" would all be
classified interactive. The code compares against four exact strings and
classifies all three as non-interactive. -/
theorem isInteractiveJobType_not_case_insensitive :
    isInteractiveJobType "INTERACTIVE" = false
    ∧ isInteractiveJobType "Vice" = false
    ∧ isInteractiveJobType "ViCe" = false := by
  decide

/-- C2 (amended): the launch-and-wait workflow classifies the app as
interactive iff the job-type tag is exactly one of "Interactive",
"interactive", "VICE", "vice" (exact, case-sensitive comparison), and this
classification alone determines whether the polling phase runs (given the
required parameters are present and the launch succeeds). -/
theorem isInteractiveJobType_exact_match :
    (∀ jobType, isInteractiveJobType jobType = true ↔
      (jobType = "Interactive" ∨ jobType = "interactive" ∨ jobType = "VICE" ∨ jobType = "vice"))
    ∧ ∀ params resp script config name maxWait interval,
        checkMissingParams params config = [] →
        (launchAndWait (.ok params) (.ok resp) script config name maxWait interval).polled
          = isInteractiveJobType params.overallJobType := by
  constructor
  · intro jobType
    simp [isInteractiveJobType, or_assoc]
  · intro params resp script config name maxWait interval hmissing
    unfold launchAndWait
    simp only [hmissing, ne_eq, not_true_eq_false, if_false]
    cases hin : isInteractiveJobType params.overallJobType with
    | false => simp
    | true =>
      simp only [Bool.not_true, Bool.false_eq_true, if_false]
      rcases hpoll : pollLoop maxWait interval 0 _ script with _ | ⟨e, n⟩
      · simp [hpoll]
      · cases e <;> simp [hpoll]

/-- Witness for the amended C2 theorem at a concrete batch job type. -/
theorem isInteractiveJobType_exact_match_witness :
    (launchAndWait (.ok { overallJobType := "DE", groups := [] })
        (.ok { analysisID := "a1", name := "n", status := "Submitted", url := "" })
        [] [] "n" 300 5).polled
      = isInteractiveJobType "DE" :=
  isInteractiveJobType_exact_match.2
    { overallJobType := "DE", groups := [] }
    { analysisID := "a1", name := "n", status := "Submitted", url := "" }
    [] [] "n" 300 5 (by decide)

/-- C3: the claim says the check-and-refresh sequence is guarded by mutual
exclusion, so a refresh in progress is never duplicated by a concurrent
caller. `FormationClient` holds no mutex, so the staleness check and the
login write interleave freely: under the schedule A-check, B-check, A-login,
B-login, starting from an absent token, both callers perform an
authentication — `loginCount` ends at 2, not 1. -/
theorem unlockedEnsureToken_duplicates_login :
    (runSchedule [false, true, false, true]
        (CallerPC.check, CallerPC.check, { token := "", loginCount := 0 })).2.2.loginCount
      = 2 := by
  decide

/-- C4 counterexample: the claim says the request path equals "/data/"
followed by the input with *all* leading slashes removed, so "//x" and "/x"
would normalize identically. `strings.TrimPrefix` removes at most one
leading slash: "//x" maps to "/data//x" while "/x" maps to "/data/x". -/
theorem buildDataPath_not_all_slashes :
    buildDataPath "//x".data = "/data//x".data
    ∧ buildDataPath "/x".data = "/data/x".data
    ∧ buildDataPath "//x".data ≠ buildDataPath "/x".data := by
  decide

/-- C4 (amended): the constructed request path equals "/data/" followed by
the caller-supplied path with at most one leading slash removed: inputs with
zero or one leading slash and the same tail yield the same normalized path,
but each additional leading slash is preserved verbatim. -/
theorem buildDataPath_strips_one_slash (t : List Char) (h : t.head? ≠ some '/') :
    buildDataPath t = "/data/".data ++ t
    ∧ buildDataPath ('/' :: t) = "/data/".data ++ t
    ∧ buildDataPath ('/' :: '/' :: t) = "/data/".data ++ ('/' :: t) := by
  refine ⟨?_, ?_, ?_⟩
  · cases t with
    | nil => rfl
    | cons c cs =>
      have hc : ¬('/' = c) := by
        intro hc
        exact h (by simp [hc.symm])
      simp [buildDataPath, trimPrefixGo, List.isPrefixOf, hc]
  · simp [buildDataPath, trimPrefixGo, List.isPrefixOf]
  · simp [buildDataPath, trimPrefixGo, List.isPrefixOf]

/-- Witness for the amended C4 theorem at the tail "x". -/
theorem buildDataPath_strips_one_slash_witness :
    buildDataPath "x".data = "/data/".data ++ "x".data
    ∧ buildDataPath ('/' :: "x".data) = "/data/".data ++ "x".data
    ∧ buildDataPath ('/' :: '/' :: "x".data) = "/data/".data ++ ('/' :: "x".data) :=
  buildDataPath_strips_one_slash "x".data (by decide)

/-- C9: after a successful authentication the stored expiry is
`now + expiresIn - 60`; a call holding a non-empty token before that expiry
performs no re-authentication; a stale token with no credentials but a
non-empty token string proceeds optimistically; with neither token nor
credentials the call fails. -/
theorem ensureToken_lifecycle :
    (∀ (c : FormationClient) (now : Int) (resp : LoginResponse),
        (loginApply c now resp).tokenExpiry = now + resp.expiresIn - 60
        ∧ (loginApply c now resp).token = resp.accessToken)
    ∧ (∀ (c : FormationClient) (now : Int),
        c.token ≠ "" → now < c.tokenExpiry → ensureToken c now = .noop)
    ∧ (∀ (c : FormationClient) (now : Int),
        c.token ≠ "" → c.tokenExpiry ≤ now → c.username = "" → c.password = "" →
          ensureToken c now = .optimistic)
    ∧ (∀ (c : FormationClient) (now : Int),
        c.token = "" → c.username = "" → c.password = "" →
          ensureToken c now = .err "no token or credentials available") := by
  refine ⟨?_, ?_, ?_, ?_⟩
  · intro c now resp
    exact ⟨rfl, rfl⟩
  · intro c now htok hfresh
    simp [ensureToken, htok, hfresh]
  · intro c now htok hstale hu hp
    simp [ensureToken, htok, not_lt.mpr hstale, hu, hp]
  · intro c now htok hu hp
    simp [ensureToken, htok, hu, hp]

/-- Witness for the C9 theorem: a fresh-token no-op, an optimistic reuse and
a no-credentials failure at concrete states, plus the expiry arithmetic at a
concrete login response. -/
theorem ensureToken_lifecycle_witness :
    (loginApply { token := "", tokenExpiry := 0, username := "u", password := "p" } 1000
        { accessToken := "tok", expiresIn := 3600 }).tokenExpiry = 1000 + 3600 - 60
    ∧ ensureToken { token := "tok", tokenExpiry := 100, username := "", password := "" } 50 = .noop
    ∧ ensureToken { token := "tok", tokenExpiry := 100, username := "", password := "" } 100 = .optimistic
    ∧ ensureToken { token := "", tokenExpiry := 0, username := "", password := "" } 0
        = .err "no token or credentials available" :=
  ⟨(ensureToken_lifecycle.1 _ 1000 { accessToken := "tok", expiresIn := 3600 }).1,
   ensureToken_lifecycle.2.1 _ 50 (by decide) (by decide),
   ensureToken_lifecycle.2.2.1 _ 100 (by decide) (by decide) rfl rfl,
   ensureToken_lifecycle.2.2.2 _ 0 rfl rfl rfl⟩

/-- Helper: the loop tick at index `i` fires at `(i+1) * interval`, which is
still within the deadline whenever `i` is below `deadline / interval`. -/
lemma tick_le_deadline (deadline interval i : Nat) (hilt : i < deadline / interval) :
    (i + 1) * interval ≤ deadline := by
  have h1 : (i + 1) * interval ≤ deadline / interval * interval :=
    Nat.mul_le_mul (by omega) (Nat.le_refl interval)
  exact le_trans h1 (Nat.div_mul_le_self _ _)

/-- Helper: the tick after `deadline / interval` many ticks is strictly past
the deadline. -/
lemma deadline_lt_next_tick (deadline interval : Nat) (hv : 0 < interval) :
    deadline < (deadline / interval + 1) * interval := by
  have hmod : deadline % interval < interval := Nat.mod_lt _ hv
  have hdm : deadline / interval * interval + deadline % interval = deadline :=
    Nat.div_add_mod' deadline interval
  have h2 : deadline < deadline / interval * interval + interval := by
    conv_lhs => rw [← hdm]
    exact Nat.add_lt_add_left hmod _
  have h3 : (deadline / interval + 1) * interval
      = deadline / interval * interval + interval := by ring
  rw [h3]
  exact h2

/-- Helper: a failed status fetch (`none` in the script) continues the loop
with the held result unchanged, provided the deadline has not passed. -/
lemma pollLoop_fetch_error_continues
    (deadline interval i : Nat) (r : LaunchResult)
    (rest : List (Option AnalysisStatus))
    (htick : (i + 1) * interval ≤ deadline) :
    pollLoop deadline interval i r (none :: rest)
      = pollLoop deadline interval (i + 1) r rest := by
  conv_lhs => unfold pollLoop
  rw [if_neg (not_lt.mpr htick)]

/-- C10: in the polling loop, the URL-readiness check takes precedence over
the terminal-failure check: a snapshot with `URLReady` and a non-empty URL
ends the loop with success carrying that URL, regardless of its status (in
particular even when the status is "Failed" or "Canceled"), and no further
polls are issued. -/
theorem pollLoop_ready_precedence
    (deadline interval i : Nat) (r : LaunchResult) (snap : AnalysisStatus)
    (rest : List (Option AnalysisStatus))
    (htick : (i + 1) * interval ≤ deadline)
    (hready : snap.urlReady = true) (hurl : snap.url ≠ "") :
    pollLoop deadline interval i r (some snap :: rest)
      = some (.ready { r with status := snap.status, url := snap.url }, i + 1) := by
  have hcond : (snap.urlReady && snap.url != "") = true := by
    simp [hready, bne_iff_ne, hurl]
  unfold pollLoop
  rw [if_neg (not_lt.mpr htick)]
  simp [hcond]

/-- Witness for the C10 theorem: a snapshot with status "Failed" but a ready
URL produces the success exit. -/
theorem pollLoop_ready_precedence_witness :
    pollLoop 200 5 0 LaunchResult.empty
        [some { analysisID := "w10", status := "Failed", urlReady := true, url := "https://ready" }]
      = some (.ready { LaunchResult.empty with status := "Failed", url := "https://ready" }, 1) :=
  pollLoop_ready_precedence 200 5 0 LaunchResult.empty
    { analysisID := "w10", status := "Failed", urlReady := true, url := "https://ready" } []
    (by omega) rfl (by decide)

/-- C5 counterexample: the claim says that whenever a fetched snapshot has
status "Failed" the workflow returns an error naming that status. A snapshot
with status "Failed" but `URLReady` and a non-empty URL instead produces the
success exit with that URL, not the failure error. -/
theorem pollLoop_ready_despite_failed_status :
    pollLoop 300 5 0 LaunchResult.empty
        [some { analysisID := "a1", status := "Failed", urlReady := true, url := "https://app" }]
      = some (.ready { LaunchResult.empty with status := "Failed", url := "https://app" }, 1)
    ∧ pollLoop 300 5 0 LaunchResult.empty
        [some { analysisID := "a1", status := "Failed", urlReady := true, url := "https://app" }]
      ≠ some (.failed { LaunchResult.empty with status := "Failed", url := "https://app" }
                ("analysis failed with status: " ++ "Failed"), 1) := by
  constructor
  · rfl
  · decide

/-- C5 (amended): during polling, whenever a fetched snapshot has status
"Failed" or "Canceled" *and does not satisfy the URL-readiness condition
(which is checked first and yields success)*, the loop returns an error
naming that status and issues no further polls (the result is independent of
the remaining script and the fetch count stops at this tick). -/
theorem pollLoop_failed_aborts
    (deadline interval i : Nat) (r : LaunchResult) (snap : AnalysisStatus)
    (rest : List (Option AnalysisStatus))
    (htick : (i + 1) * interval ≤ deadline)
    (hfail : snap.status = "Failed" ∨ snap.status = "Canceled")
    (hnoturl : ¬(snap.urlReady = true ∧ snap.url ≠ "")) :
    pollLoop deadline interval i r (some snap :: rest)
      = some (.failed { r with status := snap.status, url := snap.url }
                ("analysis failed with status: " ++ snap.status), i + 1) := by
  have hcond : (snap.urlReady && snap.url != "") = false := by
    cases h1 : snap.urlReady with
    | false => simp
    | true =>
      have hu : snap.url = "" := by
        by_contra hne
        exact hnoturl ⟨h1, hne⟩
      simp [hu]
  have hfcond : (snap.status == "Failed" || snap.status == "Canceled") = true := by
    rcases hfail with h | h <;> simp [h]
  unfold pollLoop
  rw [if_neg (not_lt.mpr htick)]
  simp [hcond, hfcond]

/-- Witness for the amended C5 theorem at a concrete "Canceled" snapshot. -/
theorem pollLoop_failed_aborts_witness :
    pollLoop 300 5 0 LaunchResult.empty
        [some { analysisID := "w5", status := "Canceled", urlReady := false, url := "" }]
      = some (.failed { LaunchResult.empty with status := "Canceled", url := "" }
                ("analysis failed with status: " ++ "Canceled"), 1) :=
  pollLoop_failed_aborts 300 5 0 LaunchResult.empty
    { analysisID := "w5", status := "Canceled", urlReady := false, url := "" } []
    (by omega) (Or.inr rfl) (by simp)

/-- Helper for C6: the polling loop, started at tick index `i` with no
ready/failure exit scripted before the deadline, times out at tick index
`deadline / interval` carrying the fold of the consumed snapshots. -/
lemma pollLoop_timeout_go (deadline interval : Nat) (hv : 0 < interval) :
    ∀ (script : List (Option AnalysisStatus)) (i : Nat) (r : LaunchResult),
      i ≤ deadline / interval →
      deadline / interval - i ≤ script.length →
      (∀ snap, some snap ∈ script.take (deadline / interval - i) →
        (snap.urlReady && snap.url != "") = false ∧
        (snap.status == "Failed" || snap.status == "Canceled") = false) →
      pollLoop deadline interval i r script
        = some (.timedOut (pollFold r (script.take (deadline / interval - i)))
                  ("timeout waiting for app to be ready after " ++ toString deadline),
                deadline / interval) := by
  intro script
  induction script with
  | nil =>
    intro i r hi hlen _
    have hieq : i = deadline / interval := by
      simp at hlen
      omega
    subst hieq
    unfold pollLoop
    rw [if_pos (deadline_lt_next_tick deadline interval hv)]
    simp [pollFold]
  | cons f rest ih =>
    intro i r hi hlen hno
    by_cases hief : i = deadline / interval
    · subst hief
      unfold pollLoop
      rw [if_pos (deadline_lt_next_tick deadline interval hv)]
      simp [pollFold]
    · have hilt : i < deadline / interval := lt_of_le_of_ne hi hief
      have hle := tick_le_deadline deadline interval i hilt
      have h1 : deadline / interval - i = (deadline / interval - (i + 1)) + 1 := by omega
      have hlen' : deadline / interval - (i + 1) ≤ rest.length := by
        simp at hlen
        omega
      have hno' : ∀ snap, some snap ∈ rest.take (deadline / interval - (i + 1)) →
          (snap.urlReady && snap.url != "") = false ∧
          (snap.status == "Failed" || snap.status == "Canceled") = false := by
        intro snap hmem
        apply hno
        rw [h1, List.take_succ_cons]
        exact List.mem_cons_of_mem _ hmem
      cases f with
      | none =>
        rw [pollLoop_fetch_error_continues deadline interval i r rest hle]
        rw [h1, List.take_succ_cons]
        have hfold : pollFold r (none :: rest.take (deadline / interval - (i + 1)))
            = pollFold r (rest.take (deadline / interval - (i + 1))) := by
          simp [pollFold]
        rw [hfold]
        exact ih (i + 1) r (by omega) hlen' hno'
      | some snap =>
        have hsnap := hno snap (by rw [h1, List.take_succ_cons]; exact List.mem_cons_self _ _)
        unfold pollLoop
        rw [if_neg (not_lt.mpr hle)]
        simp only [hsnap.1, hsnap.2, Bool.false_eq_true, if_false]
        rw [h1, List.take_succ_cons]
        have hfold : pollFold r (some snap :: rest.take (deadline / interval - (i + 1)))
            = pollFold { r with status := snap.status, url := snap.url }
                (rest.take (deadline / interval - (i + 1))) := by
          simp [pollFold]
        rw [hfold]
        exact ih (i + 1) _ (by omega) hlen' hno'

/-- C6 (amended): if no scripted snapshot before the deadline triggers the
readiness or terminal-failure exit, the polling loop terminates with a
timeout error naming the configured maximum wait, carrying the last known
partial result (the status and URL fields folded from the snapshots seen so
far — the URL field is whatever the last snapshot reported, not necessarily
empty), after exactly `deadline / interval` status fetches; the timeout tick
fires no later than one poll interval past the deadline. -/
theorem pollLoop_timeout (deadline interval : Nat) (script : List (Option AnalysisStatus))
    (r0 : LaunchResult) (hv : 0 < interval)
    (hlen : deadline / interval ≤ script.length)
    (hnoexit : ∀ snap, some snap ∈ script.take (deadline / interval) →
      (snap.urlReady && snap.url != "") = false ∧
      (snap.status == "Failed" || snap.status == "Canceled") = false) :
    pollLoop deadline interval 0 r0 script
      = some (.timedOut (pollFold r0 (script.take (deadline / interval)))
                ("timeout waiting for app to be ready after " ++ toString deadline),
              deadline / interval)
    ∧ (deadline / interval + 1) * interval ≤ deadline + interval := by
  constructor
  · have h := pollLoop_timeout_go deadline interval hv script 0 r0 (Nat.zero_le _)
      (by simpa using hlen) (by simpa using hnoexit)
    simpa using h
  · have h := Nat.div_mul_le_self deadline interval
    have h2 : (deadline / interval + 1) * interval
        = deadline / interval * interval + interval := by ring
    rw [h2]
    exact Nat.add_le_add_right h interval

/-- Witness for the C6 theorem: maxWait 7, interval 5 — one poll, then a
timeout at the second tick. -/
theorem pollLoop_timeout_witness :
    pollLoop 7 5 0 LaunchResult.empty
        [some { analysisID := "w6", status := "Running", urlReady := false, url := "" }]
      = some (.timedOut
                (pollFold LaunchResult.empty
                  (List.take (7 / 5)
                    [some { analysisID := "w6", status := "Running", urlReady := false, url := "" }]))
                ("timeout waiting for app to be ready after " ++ toString 7), 7 / 5)
    ∧ (7 / 5 + 1) * 5 ≤ 7 + 5 :=
  pollLoop_timeout 7 5
    [some { analysisID := "w6", status := "Running", urlReady := false, url := "" }]
    LaunchResult.empty (by omega) (by decide)
    (by
      intro snap hmem
      have hs : snap = { analysisID := "w6", status := "Running", urlReady := false, url := "" } := by
        simpa using hmem
      subst hs
      exact ⟨rfl, rfl⟩)

/-- C6 counterexample to the "no URL" clause: a snapshot can carry a URL
while `URLReady` is still false; the loop keeps polling and, at the timeout,
the carried partial result holds that non-empty URL — the claim says the
partial result has no URL. -/
theorem pollLoop_timeout_keeps_url :
    pollLoop 7 5 0 LaunchResult.empty
        [some { analysisID := "a2", status := "Running", urlReady := false, url := "https://early" }]
      = some (.timedOut { LaunchResult.empty with status := "Running", url := "https://early" }
                ("timeout waiting for app to be ready after 7"), 1)
    ∧ ({ LaunchResult.empty with status := "Running", url := "https://early" } : LaunchResult).url ≠ "" := by
  constructor
  · rfl
  · decide

/-- C7: a failure of the status fetch during a polling tick does not abort
the wait and surfaces no error — the loop continues to the next tick with
the held status/URL unchanged — while every other error aborts the
invocation: a parameter-fetch error and a launch error are both returned to
the caller (wrapped), with no polling performed. -/
theorem transient_fetch_failure_policy :
    (∀ (deadline interval i : Nat) (r : LaunchResult) (rest : List (Option AnalysisStatus)),
        (i + 1) * interval ≤ deadline →
        pollLoop deadline interval i r (none :: rest) = pollLoop deadline interval (i + 1) r rest)
    ∧ (∀ e launchResult script config name maxWait interval,
        launchAndWait (.error e) launchResult script config name maxWait interval
          = { outcome := .err ("failed to get app parameters: " ++ e),
              launchAttempted := false, polled := false, pollsIssued := 0 })
    ∧ (∀ params e script config name maxWait interval,
        checkMissingParams params config = [] →
        launchAndWait (.ok params) (.error e) script config name maxWait interval
          = { outcome := .err ("failed to launch app: " ++ e),
              launchAttempted := true, polled := false, pollsIssued := 0 }) := by
  refine ⟨?_, ?_, ?_⟩
  · intro deadline interval i r rest htick
    exact pollLoop_fetch_error_continues deadline interval i r rest htick
  · intro e launchResult script config name maxWait interval
    rfl
  · intro params e script config name maxWait interval h
    simp [launchAndWait, h]

/-- Witness for the C7 theorem: a concrete skipped fetch error and a
concrete propagated launch error. -/
theorem transient_fetch_failure_policy_witness :
    pollLoop 300 5 0 LaunchResult.empty [none] = pollLoop 300 5 1 LaunchResult.empty []
    ∧ launchAndWait (.ok { overallJobType := "DE", groups := [] }) (.error "boom") [] [] "n" 300 5
        = { outcome := .err ("failed to launch app: " ++ "boom"),
            launchAttempted := true, polled := false, pollsIssued := 0 } :=
  ⟨transient_fetch_failure_policy.1 300 5 0 LaunchResult.empty [] (by omega),
   transient_fetch_failure_policy.2.2 { overallJobType := "DE", groups := [] }
     "boom" [] [] "n" 300 5 (by decide)⟩

/-- Helper: the inner parameter loop of `checkMissingParams` as a filterMap. -/
lemma checkMissingParams_inner (config : LaunchConfig) :
    ∀ (ps : List Parameter) (acc : List String),
      ps.foldl
          (fun missing param =>
            if param.required && !(config.hasKey param.id) then missing ++ [param.name]
            else missing) acc
        = acc ++ ps.filterMap
            (fun p => if p.required && !(config.hasKey p.id) then some p.name else none) := by
  intro ps
  induction ps with
  | nil => intro acc; simp
  | cons p ps ih =>
    intro acc
    by_cases hp : (p.required && !(config.hasKey p.id)) = true
    · rw [List.foldl_cons, if_pos hp, ih, List.filterMap_cons, if_pos hp]
      simp
    · have hp' : ¬(p.required && !(config.hasKey p.id)) = true := hp
      rw [List.foldl_cons, if_neg hp', ih, List.filterMap_cons, if_neg hp']

/-- Helper: `checkMissingParams` equals the filterMap of the flattened
parameter list. -/
lemma checkMissingParams_eq (params : AppParameters) (config : LaunchConfig) :
    checkMissingParams params config
      = (allParameters params).filterMap
          (fun p => if p.required && !(config.hasKey p.id) then some p.name else none) := by
  unfold checkMissingParams allParameters
  have hgen : ∀ (gs : List ParameterGroup) (acc : List String),
      gs.foldl
          (fun missing group =>
            group.parameters.foldl
              (fun missing param =>
                if param.required && !(config.hasKey param.id) then missing ++ [param.name]
                else missing) missing) acc
        = acc ++ ((gs.map ParameterGroup.parameters).flatten).filterMap
            (fun p => if p.required && !(config.hasKey p.id) then some p.name else none) := by
    intro gs
    induction gs with
    | nil => intro acc; simp
    | cons g gs ih =>
      intro acc
      simp only [List.foldl_cons, List.map_cons, List.flatten_cons, List.filterMap_append]
      rw [checkMissingParams_inner config g.parameters acc, ih, List.append_assoc]
  simpa using hgen params.groups []

/-- C8: the computed missing list contains exactly the names of required
parameters whose identifiers are absent as keys of the configuration
(optional parameters never contribute); a tree with no required parameters
yields an empty missing list over any config; and a non-empty missing list
makes the workflow return it immediately, without attempting the launch
call and without polling. -/
theorem checkMissingParams_spec (params : AppParameters) (config : LaunchConfig) :
    (∀ n, n ∈ checkMissingParams params config ↔
      ∃ p ∈ allParameters params, p.required = true ∧ config.hasKey p.id = false ∧ p.name = n)
    ∧ ((∀ p ∈ allParameters params, p.required = false) →
        checkMissingParams params config = [])
    ∧ (∀ launchResult script name maxWait interval,
        checkMissingParams params config ≠ [] →
        launchAndWait (.ok params) launchResult script config name maxWait interval
          = { outcome := .missingParams (checkMissingParams params config),
              launchAttempted := false, polled := false, pollsIssued := 0 }) := by
  refine ⟨?_, ?_, ?_⟩
  · intro n
    rw [checkMissingParams_eq]
    simp only [List.mem_filterMap]
    constructor
    · rintro ⟨p, hp, hif⟩
      by_cases hb : (p.required && !(config.hasKey p.id)) = true
      · rw [if_pos hb] at hif
        have hb' : p.required = true ∧ config.hasKey p.id = false := by
          simpa [Bool.and_eq_true, Bool.not_eq_true'] using hb
        exact ⟨p, hp, hb'.1, hb'.2, by simpa using hif⟩
      · rw [if_neg hb] at hif
        exact absurd hif (by simp)
    · rintro ⟨p, hp, hreq, hkey, hname⟩
      exact ⟨p, hp, by simp [hreq, hkey, hname]⟩
  · intro hall
    rw [checkMissingParams_eq]
    apply List.filterMap_eq_nil_iff.mpr
    intro p hp
    simp [hall p hp]
  · intro launchResult script name maxWait interval h
    simp [launchAndWait, h]

/-- Witness for the C8 theorem: parameters {A required, B required,
C optional} with a config containing only A's identifier short-circuit the
launch with the missing list (which computes to ["B"]). -/
theorem checkMissingParams_spec_witness :
    launchAndWait
        (.ok { overallJobType := "DE"
               groups := [{ id := "g1", name := "g1", label := "g1"
                            parameters :=
                              [{ id := "idA", name := "A", label := "A", description := ""
                                 required := true, type := "Text" },
                               { id := "idB", name := "B", label := "B", description := ""
                                 required := true, type := "Text" },
                               { id := "idC", name := "C", label := "C", description := ""
                                 required := false, type := "Text" }] }] })
        (.ok { analysisID := "a", name := "n", status := "Submitted", url := "" })
        [] ["idA"] "n" 300 5
      = { outcome := .missingParams
            (checkMissingParams
              { overallJobType := "DE"
                groups := [{ id := "g1", name := "g1", label := "g1"
                             parameters :=
                               [{ id := "idA", name := "A", label := "A", description := ""
                                  required := true, type := "Text" },
                                { id := "idB", name := "B", label := "B", description := ""
                                  required := true, type := "Text" },
                                { id := "idC", name := "C", label := "C", description := ""
                                  required := false, type := "Text" }] }] }
              ["idA"])
          launchAttempted := false, polled := false, pollsIssued := 0 } :=
  (checkMissingParams_spec
      { overallJobType := "DE"
        groups := [{ id := "g1", name := "g1", label := "g1"
                     parameters :=
                       [{ id := "idA", name := "A", label := "A", description := ""
                          required := true, type := "Text" },
                        { id := "idB", name := "B", label := "B", description := ""
                          required := true, type := "Text" },
                        { id := "idC", name := "C", label := "C", description := ""
                          required := false, type := "Text" }] }] }
      ["idA"]).2.2
    (.ok { analysisID := "a", name := "n", status := "Submitted", url := "" })
    [] "n" 300 5 (by decide)
